import Mathlib

/-!
Verification of the QuickNotes client (a Next.js page over a Supabase
backend).  The page component is embedded as a state machine over the
React `useState` fields; each async handler becomes a function from the
client state (plus the outcome of its backend calls, passed as explicit
parameters) to the next client state together with the ordered list of
observable events it emits (loading-flag writes, backend requests,
alerts).
-/

namespace QuickNotes

/-! ## Validator (NoteSchema / validateNoteOrAlert) -/

/-- Drop the leading whitespace characters of a list, as ECMAScript
`String.prototype.trim` does on each end of a string. -/
def dropLeadingWs : List Char → List Char
  | [] => []
  | c :: cs => if c.isWhitespace then dropLeadingWs cs else c :: cs

/-- ECMAScript `trim`, applied by the zod `.trim()` transform: remove
whitespace from both ends. -/
def jsTrim (s : String) : String :=
  String.mk ((dropLeadingWs ((dropLeadingWs s.data).reverse)).reverse)

/-- Error message of the `.max(80)` check on `title` in `NoteSchema`. -/
def titleTooLongMsg : String := "Title must be 80 characters or less"

/-- Error message of the `.min(1)` check on `content` in `NoteSchema`. -/
def contentEmptyMsg : String := "Content cannot be empty"

/-- Error message of the `.max(5000)` check on `content` in `NoteSchema`. -/
def contentTooLongMsg : String := "Content must be 5000 characters or less"

/-- The issue messages produced by `NoteSchema.safeParse({title, content})`,
in zod's order: fields in shape order (`title` before `content`), and inside
a field the chained checks in order (`.min(1)` before `.max(5000)`), each
applied to the `.trim()`-transformed value. -/
def noteIssues (title content : String) : List String :=
  (if 80 < (jsTrim title).length then [titleTooLongMsg] else []) ++
  (if (jsTrim content).length < 1 then [contentEmptyMsg] else []) ++
  (if 5000 < (jsTrim content).length then [contentTooLongMsg] else [])

/-- A successfully parsed draft: `parsed.data` of `NoteSchema.safeParse`,
holding the trimmed title and content. -/
structure ParsedNote where
  title : String
  content : String
deriving Repr, DecidableEq

/-- Result of `NoteSchema.safeParse({title, content})`: the trimmed data on
success, otherwise the list of issues. -/
def safeParseNote (title content : String) : Except (List String) ParsedNote :=
  match noteIssues title content with
  | [] => Except.ok ⟨jsTrim title, jsTrim content⟩
  | iss => Except.error iss

/-- The `validateNoteOrAlert` helper: on failure it alerts
`issues[0]?.message ?? "Invalid input"` and returns null.  The second
component is the list of alerts it shows. -/
def validateNoteOrAlert (title content : String) : Option ParsedNote × List String :=
  match safeParseNote title content with
  | Except.ok d => (some d, [])
  | Except.error iss => (none, [iss.headD "Invalid input"])

/-! ## Data model -/

/-- A note row as the client sees it (`type Note`). -/
structure Note where
  id : String
  title : String
  content : String
  created_at : String
deriving Repr, DecidableEq

/-- The authenticated user carried by a session (`session.user`). -/
structure User where
  id : String
  email : String
deriving Repr, DecidableEq

/-- A row of the backend `notes` table (spec section 6: id, user_id,
title, content, created_at). -/
structure Row where
  id : String
  user_id : String
  title : String
  content : String
  created_at : String
deriving Repr, DecidableEq

/-- The backend table contents. -/
structure Backend where
  rows : List Row
deriving Repr, DecidableEq

/-- The React state of the page component: one field per `useState` hook. -/
structure ClientState where
  email : String
  password : String
  editingId : Option String
  userEmail : Option String
  notes : List Note
  title : String
  content : String
  loading : Bool
deriving Repr, DecidableEq

/-- Backend requests a handler can issue. -/
inductive Request where
  | getSession
  | selectNotes
  | insertNote (user_id title content : String)
  | updateRow (id title content : String)
  | deleteRow (id : String)
  | authSignUp (email password : String)
  | authSignIn (email password : String)
  | authSignOut
deriving Repr, DecidableEq

/-- Observable events a handler emits, in program order. -/
inductive Ev where
  | setLoading (b : Bool)
  | req (r : Request)
  | alert (msg : String)
deriving Repr, DecidableEq

/-- The backend requests among a list of events, in order. -/
def evsRequests (evs : List Ev) : List Request :=
  evs.filterMap fun e => match e with | Ev.req r => some r | _ => none

/-- The alert messages among a list of events, in order. -/
def evsAlerts (evs : List Ev) : List String :=
  evs.filterMap fun e => match e with | Ev.alert m => some m | _ => none

/-- Outcome of the `select` issued by `loadNotes`. -/
inductive FetchOutcome where
  | ok (data : List Note)
  | err (msg : String)
deriving Repr, DecidableEq

/-- JS truthiness of a nullable string: `null` and `""` are falsy. -/
def optTruthy : Option String → Bool
  | none => false
  | some s => !(s == "")

/-- Projection of a table row to the selected columns
`id,title,content,created_at`. -/
def rowToNote (r : Row) : Note := ⟨r.id, r.title, r.content, r.created_at⟩

/-- Newest-first order on notes (`created_at` descending; ISO-8601
timestamps compare chronologically as strings). -/
def createdDesc (a b : Note) : Prop := b.created_at ≤ a.created_at

instance : DecidableRel createdDesc := fun a b =>
  inferInstanceAs (Decidable (b.created_at ≤ a.created_at))

instance : IsTotal Note createdDesc :=
  ⟨fun a b => le_total b.created_at a.created_at⟩

instance : IsTrans Note createdDesc :=
  ⟨fun _ _ _ hab hbc => le_trans hbc hab⟩

/-- Modelled from the spec: the backend data service answering the
`select("id,title,content,created_at").order("created_at", descending)`
query.  Access control (spec section 6) restricts the result to rows owned
by the session user; the rows come back newest first. -/
def fetchNotes (b : Backend) (u : User) : List Note :=
  ((b.rows.filter fun r => r.user_id == u.id).map rowToNote).insertionSort createdDesc

/-- Modelled from the spec: the backend effect of
`from("notes").delete().eq("id", id)` — the row with that id is removed. -/
def backendDelete (b : Backend) (id : String) : Backend :=
  ⟨b.rows.filter fun r => !(r.id == id)⟩

/-- The guard of the edit-discarding branch of `loadNotes`:
`editingId && !nextNotes.some((n) => n.id === editingId)`. -/
def editGone (editingId : Option String) (data : List Note) : Bool :=
  optTruthy editingId && !(data.any fun n => editingId == some n.id)

/-! ## Handlers -/

/-- The `loadNotes` handler.  `session` is the outcome of its
`auth.getSession()` call; `fetch` the outcome of the `select` (only
consulted when a session exists — without one the handler returns before
fetching). -/
def loadNotes (s : ClientState) (session : Option User) (fetch : FetchOutcome) :
    ClientState × List Ev :=
  match session with
  | none =>
      ({ s with notes := [], loading := false },
       [Ev.setLoading true, Ev.req Request.getSession, Ev.setLoading false])
  | some _ =>
      match fetch with
      | FetchOutcome.err _ =>
          ({ s with loading := false },
           [Ev.setLoading true, Ev.req Request.getSession, Ev.req Request.selectNotes,
            Ev.setLoading false])
      | FetchOutcome.ok data =>
          let s1 := { s with notes := data }
          let s2 :=
            if editGone s.editingId data then
              { s1 with editingId := none, title := "", content := "" }
            else s1
          ({ s2 with loading := false },
           [Ev.setLoading true, Ev.req Request.getSession, Ev.req Request.selectNotes,
            Ev.setLoading false])

/-- The `refreshSession` handler: re-derives `userEmail` from the current
session. -/
def refreshSession (s : ClientState) (session : Option User) : ClientState × List Ev :=
  ({ s with userEmail := session.map User.email }, [Ev.req Request.getSession])

/-- Success alert shown by `signUp`. -/
def signUpSuccessMsg : String := "Signed up! If email confirmation is on, check your inbox."

/-- The `signUp` handler; `authErr` is the error reported by
`auth.signUp`, if any. -/
def signUp (s : ClientState) (authErr : Option String) : ClientState × List Ev :=
  ({ s with loading := false },
   [Ev.setLoading true, Ev.req (Request.authSignUp s.email s.password),
    Ev.setLoading false] ++
   match authErr with
   | some m => [Ev.alert m]
   | none => [Ev.alert signUpSuccessMsg])

/-- The `signIn` handler; `authErr` is the error reported by
`auth.signInWithPassword`, if any. -/
def signIn (s : ClientState) (authErr : Option String) : ClientState × List Ev :=
  ({ s with loading := false },
   [Ev.setLoading true, Ev.req (Request.authSignIn s.email s.password),
    Ev.setLoading false] ++
   match authErr with
   | some m => [Ev.alert m]
   | none => [])

/-- The `signOut` handler: it only awaits `auth.signOut()` — it neither
sets the loading flag nor touches any state itself. -/
def signOut (s : ClientState) : ClientState × List Ev :=
  (s, [Ev.req Request.authSignOut])

/-- The `onAuthStateChange` subscription handler: `refreshSession()` then
`loadNotes()`. -/
def onAuthChange (s : ClientState) (session : Option User) (fetch : FetchOutcome) :
    ClientState × List Ev :=
  let r1 := refreshSession s session
  let r2 := loadNotes r1.1 session fetch
  (r2.1, r1.2 ++ r2.2)

/-- Sign-out followed by the auth-state-change event it triggers, the
session now being absent. -/
def signOutFlow (s : ClientState) (fetch : FetchOutcome) : ClientState × List Ev :=
  let r1 := signOut s
  let r2 := onAuthChange r1.1 none fetch
  (r2.1, r1.2 ++ r2.2)

/-- The `addNote` handler.  `session` is the outcome of its
`auth.getSession()`; `insertErr` the error reported by the insert, if any;
`fetchAfter` the outcome of the reload it performs on success. -/
def addNote (s : ClientState) (session : Option User) (insertErr : Option String)
    (fetchAfter : FetchOutcome) : ClientState × List Ev :=
  match session with
  | none =>
      ({ s with loading := false },
       [Ev.setLoading true, Ev.req Request.getSession, Ev.alert "Please sign in.",
        Ev.setLoading false])
  | some u =>
      match validateNoteOrAlert s.title s.content with
      | (none, alerts) =>
          ({ s with loading := false },
           [Ev.setLoading true, Ev.req Request.getSession] ++ alerts.map Ev.alert ++
           [Ev.setLoading false])
      | (some d, _) =>
          match insertErr with
          | some m =>
              ({ s with loading := false },
               [Ev.setLoading true, Ev.req Request.getSession,
                Ev.req (Request.insertNote u.id d.title d.content),
                Ev.setLoading false, Ev.alert m])
          | none =>
              let s1 := { s with title := "", content := "" }
              let r2 := loadNotes s1 session fetchAfter
              (r2.1,
               [Ev.setLoading true, Ev.req Request.getSession,
                Ev.req (Request.insertNote u.id d.title d.content),
                Ev.setLoading false] ++ r2.2)

/-- The `deleteNote` handler; `delErr` is the error reported by the
delete, `fetchAfter` the outcome of the reload on success. -/
def deleteNote (s : ClientState) (id : String) (delErr : Option String)
    (session : Option User) (fetchAfter : FetchOutcome) : ClientState × List Ev :=
  match delErr with
  | some m =>
      ({ s with loading := false },
       [Ev.setLoading true, Ev.req (Request.deleteRow id), Ev.setLoading false,
        Ev.alert m])
  | none =>
      let r2 := loadNotes s session fetchAfter
      (r2.1, [Ev.setLoading true, Ev.req (Request.deleteRow id), Ev.setLoading false] ++ r2.2)

/-- The `updateNote` handler.  It never consults the session itself; the
`session`/`fetchAfter` parameters only feed the reload it performs on a
successful update.  Its first statement is the `if (!editingId) return`
guard, and validation runs before the loading flag is set. -/
def updateNote (s : ClientState) (updateErr : Option String) (session : Option User)
    (fetchAfter : FetchOutcome) : ClientState × List Ev :=
  if optTruthy s.editingId = false then (s, [])
  else
    match validateNoteOrAlert s.title s.content with
    | (none, alerts) => (s, alerts.map Ev.alert)
    | (some d, _) =>
        match updateErr with
        | some m =>
            ({ s with loading := false },
             [Ev.setLoading true,
              Ev.req (Request.updateRow (s.editingId.getD "") d.title d.content),
              Ev.alert m, Ev.setLoading false])
        | none =>
            let s1 := { s with editingId := none, title := "", content := "" }
            let r2 := loadNotes s1 session fetchAfter
            ({ r2.1 with loading := false },
             [Ev.setLoading true,
              Ev.req (Request.updateRow (s.editingId.getD "") d.title d.content)] ++
             r2.2 ++ [Ev.setLoading false])

/-- The submit button dispatch: `onClick={editingId ? updateNote : addNote}`. -/
def submit (s : ClientState) (session : Option User) (writeErr : Option String)
    (fetchAfter : FetchOutcome) : ClientState × List Ev :=
  if optTruthy s.editingId then updateNote s writeErr session fetchAfter
  else addNote s session writeErr fetchAfter

/-! ## Busy-flag discipline -/

/-- Checks that every backend request in an event list is issued while the
loading flag (folded from the `setLoading` events, starting from the given
value) is set. -/
def requestsGuarded : Bool → List Ev → Bool
  | _, [] => true
  | _, Ev.setLoading b :: rest => requestsGuarded b rest
  | cur, Ev.req _ :: rest => cur && requestsGuarded cur rest
  | cur, Ev.alert _ :: rest => requestsGuarded cur rest

/-- A rendered button: label and disabled attribute. -/
structure ButtonSpec where
  label : String
  disabled : Bool
deriving Repr, DecidableEq

/-- The mutating controls of the page, each rendered with
`disabled={loading}` (Sign out, Sign in, Sign up, the Add note / Save
changes submit button, Edit, Delete). -/
def mutatingButtons (s : ClientState) : List ButtonSpec :=
  [⟨"Sign out", s.loading⟩, ⟨"Sign in", s.loading⟩, ⟨"Sign up", s.loading⟩,
   ⟨"Add note", s.loading⟩, ⟨"Save changes", s.loading⟩,
   ⟨"Edit", s.loading⟩, ⟨"Delete", s.loading⟩]

/-! ## Validator lemmas and claims -/

lemma dropLeadingWs_replicate (n : Nat) (c : Char) (h : c.isWhitespace = false) :
    dropLeadingWs (List.replicate n c) = List.replicate n c := by
  cases n with
  | zero => rfl
  | succ k => rw [List.replicate_succ]; simp [dropLeadingWs, h]

lemma jsTrim_replicate (n : Nat) (c : Char) (h : c.isWhitespace = false) :
    jsTrim (String.mk (List.replicate n c)) = String.mk (List.replicate n c) := by
  simp [jsTrim, dropLeadingWs_replicate, h, List.reverse_replicate]

lemma length_mk (l : List Char) : (String.mk l).length = l.length := rfl

/-- The 81-character title of the spec scenario (81 letters a). -/
def title81 : String := String.mk (List.replicate 81 'a')

/-- The 5001-character content of the spec scenario (5001 letters x). -/
def content5001 : String := String.mk (List.replicate 5001 'x')

lemma title81_len : (jsTrim title81).length = 81 := by
  rw [title81, jsTrim_replicate 81 'a' (by decide), length_mk, List.length_replicate]

lemma content5001_len : (jsTrim content5001).length = 5001 := by
  rw [content5001, jsTrim_replicate 5001 'x' (by decide), length_mk, List.length_replicate]

lemma validateNoteOrAlert_snd (title content : String) :
    (validateNoteOrAlert title content).2 =
      if noteIssues title content = [] then []
      else [(noteIssues title content).headD "Invalid input"] := by
  unfold validateNoteOrAlert safeParseNote
  cases h : noteIssues title content <;> simp [h]

/-- C3 (counterexample): the input (title "t", content "") fails
validation with trimmed content empty, but the alerted message is
"Content cannot be empty", not the "Content empty" stated by the claim. -/
theorem validateNote_message_claim_cex :
    (validateNoteOrAlert "t" "").1 = none ∧
    (jsTrim "").length = 0 ∧
    (validateNoteOrAlert "t" "").2 = ["Content cannot be empty"] ∧
    "Content cannot be empty" ≠ "Content empty" := by decide

/-- C3 (amended): for every failing (title, content), the alerted message
is exactly "Title must be 80 characters or less" when the trimmed title
exceeds 80 characters, "Content cannot be empty" when (the title is within
bounds and) the trimmed content is empty, and "Content must be 5000
characters or less" when the trimmed content exceeds 5000 characters. -/
theorem validateNote_messages (title content : String) :
    (80 < (jsTrim title).length →
      (validateNoteOrAlert title content).2 = [titleTooLongMsg]) ∧
    ((jsTrim title).length ≤ 80 → (jsTrim content).length = 0 →
      (validateNoteOrAlert title content).2 = [contentEmptyMsg]) ∧
    ((jsTrim title).length ≤ 80 → 5000 < (jsTrim content).length →
      (validateNoteOrAlert title content).2 = [contentTooLongMsg]) := by
  refine ⟨fun h => ?_, fun h1 h2 => ?_, fun h1 h2 => ?_⟩
  · simp [validateNoteOrAlert_snd, noteIssues, h]
  · simp [validateNoteOrAlert_snd, noteIssues, h2, Nat.not_lt.2 h1]
  · have hne : ¬ (jsTrim content).length < 1 := by omega
    simp [validateNoteOrAlert_snd, noteIssues, Nat.not_lt.2 h1, hne, h2]

/-- Witness for C3: the three message cases at the spec scenario inputs
(81-character title, empty content, 5001-character content). -/
theorem validateNote_messages_witness :
    (validateNoteOrAlert title81 "ok").2 = [titleTooLongMsg] ∧
    (validateNoteOrAlert "t" "").2 = [contentEmptyMsg] ∧
    (validateNoteOrAlert "t" content5001).2 = [contentTooLongMsg] :=
  ⟨(validateNote_messages title81 "ok").1 (by rw [title81_len]; omega),
   (validateNote_messages "t" "").2.1 (by decide) (by decide),
   (validateNote_messages "t" content5001).2.2 (by decide) (by rw [content5001_len]; omega)⟩

/-- C4: the Validator succeeds exactly on inputs whose trimmed title has
at most 80 characters and whose trimmed content length lies in [1, 5000],
returning both values trimmed; on any other input it fails, and the
reported (first) failure follows the priority order title-too-long,
content-empty, content-too-long. -/
theorem validator_success_and_priority (title content : String) :
    ((jsTrim title).length ≤ 80 → 1 ≤ (jsTrim content).length →
      (jsTrim content).length ≤ 5000 →
      safeParseNote title content = Except.ok ⟨jsTrim title, jsTrim content⟩) ∧
    (¬((jsTrim title).length ≤ 80 ∧ 1 ≤ (jsTrim content).length ∧
        (jsTrim content).length ≤ 5000) →
      safeParseNote title content = Except.error (noteIssues title content) ∧
      noteIssues title content ≠ []) ∧
    (80 < (jsTrim title).length →
      (noteIssues title content).headD "Invalid input" = titleTooLongMsg) ∧
    ((jsTrim title).length ≤ 80 → (jsTrim content).length = 0 →
      (noteIssues title content).headD "Invalid input" = contentEmptyMsg) ∧
    ((jsTrim title).length ≤ 80 → 5000 < (jsTrim content).length →
      (noteIssues title content).headD "Invalid input" = contentTooLongMsg) := by
  refine ⟨fun h1 h2 h3 => ?_, fun h => ?_, fun h => ?_, fun h1 h2 => ?_, fun h1 h2 => ?_⟩
  · have e1 : ¬ 80 < (jsTrim title).length := Nat.not_lt.2 h1
    have e2 : ¬ (jsTrim content).length < 1 := by omega
    have e3 : ¬ 5000 < (jsTrim content).length := Nat.not_lt.2 h3
    simp [safeParseNote, noteIssues, e1, e2, e3]
  · have hne : noteIssues title content ≠ [] := by
      push_neg at h
      by_cases c1 : 80 < (jsTrim title).length
      · simp [noteIssues, c1]
      · by_cases c2 : (jsTrim content).length < 1
        · simp [noteIssues, c2]
        · have c3 : 5000 < (jsTrim content).length := by
            rcases Nat.lt_or_ge 5000 (jsTrim content).length with hc | hc
            · exact hc
            · exact absurd hc (by have := h (Nat.not_lt.1 c1) (by omega); omega)
          simp [noteIssues, c3]
    refine ⟨?_, hne⟩
    unfold safeParseNote
    cases hi : noteIssues title content with
    | nil => exact absurd hi hne
    | cons a l => simp
  · simp [noteIssues, h]
  · simp [noteIssues, h2, Nat.not_lt.2 h1]
  · have hne : ¬ (jsTrim content).length < 1 := by omega
    simp [noteIssues, Nat.not_lt.2 h1, hne, h2]

/-- Witness for C4: the success case at ("a", "b"), the failure case and
each priority case at concrete inputs, including the 81-character title
and the 5001-character content. -/
theorem validator_success_and_priority_witness :
    safeParseNote "a" "b" = Except.ok ⟨jsTrim "a", jsTrim "b"⟩ ∧
    (safeParseNote "t" "" = Except.error (noteIssues "t" "") ∧ noteIssues "t" "" ≠ []) ∧
    (noteIssues title81 "ok").headD "Invalid input" = titleTooLongMsg ∧
    (noteIssues "t" "").headD "Invalid input" = contentEmptyMsg ∧
    (noteIssues "t" content5001).headD "Invalid input" = contentTooLongMsg :=
  ⟨(validator_success_and_priority "a" "b").1 (by decide) (by decide) (by decide),
   (validator_success_and_priority "t" "").2.1 (by decide),
   (validator_success_and_priority title81 "ok").2.2.1 (by rw [title81_len]; omega),
   (validator_success_and_priority "t" "").2.2.2.1 (by decide) (by decide),
   (validator_success_and_priority "t" content5001).2.2.2.2 (by decide)
     (by rw [content5001_len]; omega)⟩

/-! ## Concrete states used by witnesses and counterexamples -/

/-- A sample loaded note. -/
def demoNote : Note := ⟨"n1", "T", "C", "2024-05-01T10:00:00Z"⟩

/-- A state with notes loaded and the edit target set to "n1". -/
def editState : ClientState :=
  ⟨"u@example.com", "pw", some "n1", some "u@example.com", [demoNote], "T2", "C2", false⟩

/-- A create-mode state (no edit target) with a non-empty draft. -/
def createState : ClientState :=
  ⟨"u@example.com", "pw", none, some "u@example.com", [demoNote], "T2", "C2", false⟩

/-! ## C1: sign-out -/

/-- C1 (counterexample): from a state with loaded notes and edit target
"n1", sign-out empties the note list but leaves the edit target and the
draft in place, contradicting the claim that they are cleared. -/
theorem signOut_claim_cex :
    (signOutFlow editState (FetchOutcome.ok [])).1.notes = [] ∧
    (signOutFlow editState (FetchOutcome.ok [])).1.editingId = some "n1" ∧
    ¬ (signOutFlow editState (FetchOutcome.ok [])).1.editingId = none ∧
    (signOutFlow editState (FetchOutcome.ok [])).1.title = "T2" ∧
    (signOutFlow editState (FetchOutcome.ok [])).1.content = "C2" := by decide

/-- C1 (amended): sign-out, together with the auth-state change it
triggers, empties the note list and clears the session identity, but
leaves the edit target and its draft title/content unchanged (the
edit-discarding branch of loadNotes runs only after a successful fetch,
and the no-session path returns before fetching). -/
theorem signOut_clears_list_keeps_edit (s : ClientState) (fetch : FetchOutcome) :
    (signOutFlow s fetch).1.notes = [] ∧
    (signOutFlow s fetch).1.userEmail = none ∧
    (signOutFlow s fetch).1.editingId = s.editingId ∧
    (signOutFlow s fetch).1.title = s.title ∧
    (signOutFlow s fetch).1.content = s.content := by
  simp [signOutFlow, signOut, onAuthChange, refreshSession, loadNotes]

/-! ## C2: submitting with no session -/

/-- C2 (counterexample): submitting in edit mode with no active session
does not fail with AuthRequired — the client performs no session check and
sends the update request anyway, alerting nothing. -/
theorem submit_no_session_claim_cex :
    Request.updateRow "n1" "T2" "C2" ∈
      evsRequests (submit editState none none (FetchOutcome.ok [])).2 ∧
    evsAlerts (submit editState none none (FetchOutcome.ok [])).2 = [] := by decide

/-- C2 (amended): in create mode (no edit target), submitting with no
active session alerts "Please sign in.", issues no insert or update
request (only the session read), and leaves all client state other than
the busy flag unchanged; in edit mode the client sends the update without
any session check. -/
theorem submit_create_no_session (s : ClientState) (writeErr : Option String)
    (fetch : FetchOutcome) (h : optTruthy s.editingId = false) :
    (submit s none writeErr fetch).1 = { s with loading := false } ∧
    evsRequests (submit s none writeErr fetch).2 = [Request.getSession] ∧
    evsAlerts (submit s none writeErr fetch).2 = ["Please sign in."] := by
  simp [submit, h, addNote, evsRequests, evsAlerts]

/-- Witness for C2 at a concrete create-mode state. -/
theorem submit_create_no_session_witness :
    (submit createState none none (FetchOutcome.ok [])).1 =
      { createState with loading := false } ∧
    evsRequests (submit createState none none (FetchOutcome.ok [])).2 =
      [Request.getSession] ∧
    evsAlerts (submit createState none none (FetchOutcome.ok [])).2 =
      ["Please sign in."] :=
  submit_create_no_session createState none (FetchOutcome.ok []) (by decide)

/-! ## C5: load semantics -/

/-- C5: with no session, load() empties the note list and issues no fetch
(its only request is the session read); with a session it replaces the
list wholesale with the backend's answer, which is ordered by creation
time descending (newest first). -/
theorem load_replaces_wholesale (s : ClientState) (fetch : FetchOutcome)
    (u : User) (b : Backend) :
    ((loadNotes s none fetch).1.notes = [] ∧
      evsRequests (loadNotes s none fetch).2 = [Request.getSession]) ∧
    ((loadNotes s (some u) (FetchOutcome.ok (fetchNotes b u))).1.notes = fetchNotes b u ∧
      List.Sorted createdDesc (fetchNotes b u)) := by
  refine ⟨⟨?_, ?_⟩, ?_, ?_⟩
  · simp [loadNotes]
  · simp [loadNotes, evsRequests]
  · simp only [loadNotes]
    split <;> rfl
  · exact List.sorted_insertionSort createdDesc _

/-! ## C9: load idempotence -/

/-- C9: calling load() twice in succession against the same session and
backend answer (no intervening mutation) yields identical note lists. -/
theorem load_idempotent (s : ClientState) (session : Option User) (fetch : FetchOutcome) :
    (loadNotes (loadNotes s session fetch).1 session fetch).1.notes =
      (loadNotes s session fetch).1.notes := by
  cases session with
  | none => simp [loadNotes]
  | some u =>
      cases fetch with
      | err m => simp [loadNotes]
      | ok data =>
          simp only [loadNotes]
          split <;> (try split) <;> rfl

/-! ## C10: update with no edit target -/

/-- C10: with no edit target set, updateNote is a complete no-op — the
state (busy flag, draft, note list included) is unchanged and no event is
emitted: no validation alert, no backend request, no message. -/
theorem update_noop_without_target (s : ClientState) (updateErr : Option String)
    (session : Option User) (fetch : FetchOutcome) (h : s.editingId = none) :
    updateNote s updateErr session fetch = (s, []) := by
  simp [updateNote, h, optTruthy]

/-- Witness for C10 at a concrete create-mode state. -/
theorem update_noop_without_target_witness :
    updateNote createState none none (FetchOutcome.ok []) = (createState, []) :=
  update_noop_without_target createState none none (FetchOutcome.ok []) rfl

/-! ## C6: stale edit target discarded -/

lemma mem_fetchNotes_backendDelete (b : Backend) (u : User) (e : String) (n : Note)
    (hn : n ∈ fetchNotes (backendDelete b e) u) : n.id ≠ e := by
  have hmem := (List.perm_insertionSort createdDesc
      (((backendDelete b e).rows.filter fun r => r.user_id == u.id).map rowToNote)).mem_iff.mp
    hn
  obtain ⟨r, hr, hrn⟩ := List.mem_map.mp hmem
  have hr2 : r ∈ (backendDelete b e).rows := List.mem_of_mem_filter hr
  have hid : ¬ r.id = e := by
    rw [backendDelete] at hr2
    simpa using (List.mem_filter.mp hr2).2
  rw [← hrn]
  simpa [rowToNote] using hid

lemma editGone_of_not_mem (e : String) (data : List Note) (h2 : e ≠ "")
    (hdata : ∀ n ∈ data, n.id ≠ e) : editGone (some e) data = true := by
  simp [editGone, optTruthy, h2]
  intro n hn
  exact fun he => (hdata n hn) he.symm

/-- C6: if a successful load returns a list in which no note carries the
pending edit target's identifier, the edit target and its draft are
cleared with no alert; in particular, deleting the currently edited note
(with the reload then reflecting the deletion) clears the edit target. -/
theorem load_discards_stale_edit (s : ClientState) (u : User) (e : String)
    (h1 : s.editingId = some e) (h2 : e ≠ "") :
    (∀ data : List Note, (∀ n ∈ data, n.id ≠ e) →
      (loadNotes s (some u) (FetchOutcome.ok data)).1.editingId = none ∧
      (loadNotes s (some u) (FetchOutcome.ok data)).1.title = "" ∧
      (loadNotes s (some u) (FetchOutcome.ok data)).1.content = "" ∧
      evsAlerts (loadNotes s (some u) (FetchOutcome.ok data)).2 = []) ∧
    (∀ b : Backend,
      (deleteNote s e none (some u)
          (FetchOutcome.ok (fetchNotes (backendDelete b e) u))).1.editingId = none ∧
      evsAlerts (deleteNote s e none (some u)
          (FetchOutcome.ok (fetchNotes (backendDelete b e) u))).2 = []) := by
  have hload : ∀ data : List Note, (∀ n ∈ data, n.id ≠ e) →
      (loadNotes s (some u) (FetchOutcome.ok data)).1.editingId = none ∧
      (loadNotes s (some u) (FetchOutcome.ok data)).1.title = "" ∧
      (loadNotes s (some u) (FetchOutcome.ok data)).1.content = "" ∧
      evsAlerts (loadNotes s (some u) (FetchOutcome.ok data)).2 = [] := by
    intro data hdata
    have hgone : editGone s.editingId data = true := by
      rw [h1]; exact editGone_of_not_mem e data h2 hdata
    simp [loadNotes, hgone, evsAlerts]
  refine ⟨hload, fun b => ?_⟩
  have hdel := hload (fetchNotes (backendDelete b e) u)
    (fun n hn => mem_fetchNotes_backendDelete b u e n hn)
  refine ⟨?_, ?_⟩
  · simpa [deleteNote] using hdel.1
  · have := hdel.2.2.2
    simp [deleteNote, evsAlerts] at this ⊢
    exact this

/-- The session user of the concrete backend scenarios. -/
def demoUser : User := ⟨"u1", "u@example.com"⟩

/-- A backend holding exactly the row of `demoNote`, owned by `demoUser`. -/
def demoBackend : Backend := ⟨[⟨"n1", "u1", "T", "C", "2024-05-01T10:00:00Z"⟩]⟩

/-- Witness for C6: a reload that no longer contains the edited note
"n1", and a delete of "n1" itself, both clear the edit target. -/
theorem load_discards_stale_edit_witness :
    ((loadNotes editState (some demoUser) (FetchOutcome.ok [])).1.editingId = none ∧
      (loadNotes editState (some demoUser) (FetchOutcome.ok [])).1.title = "" ∧
      (loadNotes editState (some demoUser) (FetchOutcome.ok [])).1.content = "" ∧
      evsAlerts (loadNotes editState (some demoUser) (FetchOutcome.ok [])).2 = []) ∧
    ((deleteNote editState "n1" none (some demoUser)
        (FetchOutcome.ok (fetchNotes (backendDelete demoBackend "n1") demoUser))).1.editingId =
        none ∧
      evsAlerts (deleteNote editState "n1" none (some demoUser)
        (FetchOutcome.ok (fetchNotes (backendDelete demoBackend "n1") demoUser))).2 = []) :=
  ⟨(load_discards_stale_edit editState demoUser "n1" rfl (by decide)).1 []
      (by intro n hn; cases hn),
   (load_discards_stale_edit editState demoUser "n1" rfl (by decide)).2 demoBackend⟩

/-! ## C8: backend errors abort atomically -/

/-- C8: for each mutating operation (create, update, delete), a backend
error is alerted verbatim and aborts the operation — exactly one write
request is issued (no retry), no select is issued (no reload), and the
note list, draft, edit target and session identity keep their values; on
success the operation is fully applied: the reload is issued, addNote
clears the draft, updateNote clears the edit target. -/
theorem mutation_error_atomic (s : ClientState) (u : User) (m : String) (id : String)
    (fetch : FetchOutcome) :
    (∀ d, validateNoteOrAlert s.title s.content = (some d, []) →
      (addNote s (some u) (some m) fetch).1 = { s with loading := false } ∧
      evsRequests (addNote s (some u) (some m) fetch).2 =
        [Request.getSession, Request.insertNote u.id d.title d.content] ∧
      evsAlerts (addNote s (some u) (some m) fetch).2 = [m]) ∧
    ((deleteNote s id (some m) (some u) fetch).1 = { s with loading := false } ∧
      evsRequests (deleteNote s id (some m) (some u) fetch).2 = [Request.deleteRow id] ∧
      evsAlerts (deleteNote s id (some m) (some u) fetch).2 = [m]) ∧
    (∀ e d, s.editingId = some e → e ≠ "" →
      validateNoteOrAlert s.title s.content = (some d, []) →
      (updateNote s (some m) (some u) fetch).1 = { s with loading := false } ∧
      evsRequests (updateNote s (some m) (some u) fetch).2 =
        [Request.updateRow e d.title d.content] ∧
      evsAlerts (updateNote s (some m) (some u) fetch).2 = [m]) ∧
    (∀ d, validateNoteOrAlert s.title s.content = (some d, []) →
      Request.selectNotes ∈ evsRequests (addNote s (some u) none fetch).2 ∧
      (addNote s (some u) none fetch).1.title = "" ∧
      (addNote s (some u) none fetch).1.content = "") ∧
    Request.selectNotes ∈ evsRequests (deleteNote s id none (some u) fetch).2 ∧
    (∀ e d, s.editingId = some e → e ≠ "" →
      validateNoteOrAlert s.title s.content = (some d, []) →
      Request.selectNotes ∈ evsRequests (updateNote s none (some u) fetch).2 ∧
      (updateNote s none (some u) fetch).1.editingId = none) := by
  refine ⟨fun d hv => ?_, ?_, fun e d h1 h2 hv => ?_, fun d hv => ?_, ?_,
    fun e d h1 h2 hv => ?_⟩
  · simp [addNote, hv, evsRequests, evsAlerts]
  · simp [deleteNote, evsRequests, evsAlerts]
  · have hsome : optTruthy (some e) = true := by simp [optTruthy, h2]
    simp [updateNote, h1, hsome, hv, evsRequests, evsAlerts]
  · cases fetch with
    | ok data =>
        simp [addNote, hv, loadNotes, evsRequests]
        split <;> simp [evsRequests]
    | err msg => simp [addNote, hv, loadNotes, evsRequests]
  · cases fetch <;> simp [deleteNote, loadNotes, evsRequests]
  · have hsome : optTruthy (some e) = true := by simp [optTruthy, h2]
    cases fetch <;>
      simp [updateNote, h1, hsome, hv, loadNotes, evsRequests, editGone, optTruthy] <;>
      simp_all

/-- Witness for C8 at a concrete state: the error "boom" is alerted
verbatim by each operation, the delete success issues the reload, and the
update success clears the edit target. -/
theorem mutation_error_atomic_witness :
    evsAlerts (addNote editState (some demoUser) (some "boom") (FetchOutcome.ok [])).2 =
      ["boom"] ∧
    evsAlerts (deleteNote editState "n1" (some "boom") (some demoUser)
      (FetchOutcome.ok [])).2 = ["boom"] ∧
    evsAlerts (updateNote editState (some "boom") (some demoUser)
      (FetchOutcome.ok [])).2 = ["boom"] ∧
    Request.selectNotes ∈
      evsRequests (deleteNote editState "n1" none (some demoUser) (FetchOutcome.ok [])).2 ∧
    (updateNote editState none (some demoUser) (FetchOutcome.ok [])).1.editingId = none :=
  ⟨((mutation_error_atomic editState demoUser "boom" "n1" (FetchOutcome.ok [])).1
      ⟨"T2", "C2"⟩ (by decide)).2.2,
   ((mutation_error_atomic editState demoUser "boom" "n1" (FetchOutcome.ok [])).2.1).2.2,
   ((mutation_error_atomic editState demoUser "boom" "n1" (FetchOutcome.ok [])).2.2.1
      "n1" ⟨"T2", "C2"⟩ rfl (by decide) (by decide)).2.2,
   (mutation_error_atomic editState demoUser "boom" "n1" (FetchOutcome.ok [])).2.2.2.2.1,
   ((mutation_error_atomic editState demoUser "boom" "n1" (FetchOutcome.ok [])).2.2.2.2.2
      "n1" ⟨"T2", "C2"⟩ rfl (by decide) (by decide)).2⟩

/-! ## C7: busy-flag discipline -/

/-- C7 (counterexample): the sign-out entry point issues its backend
request without ever setting the busy flag — its request is outstanding
while the busy boolean is still false — contradicting the claim that
every mutating entry point holds the busy flag during its request. -/
theorem signOut_not_busy_cex :
    evsRequests (signOut createState).2 = [Request.authSignOut] ∧
    requestsGuarded false (signOut createState).2 = false := by decide

/-- C7 (amended): every mutating button is rendered disabled while the
busy flag is set, and the sign-up, sign-in, create, delete and update
entry points (as well as the reload) only issue backend requests while
the busy flag is set; sign-out however issues its request without setting
the flag (see the counterexample). -/
theorem busy_guards_requests (s : ClientState) (e1 e2 : Option String)
    (session : Option User) (fetch : FetchOutcome) (id : String) :
    requestsGuarded false (signUp s e1).2 = true ∧
    requestsGuarded false (signIn s e1).2 = true ∧
    requestsGuarded false (addNote s session e2 fetch).2 = true ∧
    requestsGuarded false (deleteNote s id e2 session fetch).2 = true ∧
    requestsGuarded false (updateNote s e2 session fetch).2 = true ∧
    requestsGuarded false (loadNotes s session fetch).2 = true ∧
    (s.loading = true → (mutatingButtons s).all (fun b => b.disabled) = true) := by
  refine ⟨?_, ?_, ?_, ?_, ?_, ?_, ?_⟩
  · cases e1 <;> simp [signUp, requestsGuarded]
  · cases e1 <;> simp [signIn, requestsGuarded]
  · cases session with
    | none => simp [addNote, requestsGuarded]
    | some u =>
        cases hv : safeParseNote s.title s.content with
        | error iss => simp [addNote, validateNoteOrAlert, hv, requestsGuarded]
        | ok d =>
            cases e2 with
            | some m => simp [addNote, validateNoteOrAlert, hv, requestsGuarded]
            | none =>
                cases fetch <;>
                  simp [addNote, validateNoteOrAlert, hv, loadNotes, requestsGuarded]
  · cases e2 <;> cases session <;> cases fetch <;>
      simp [deleteNote, loadNotes, requestsGuarded]
  · by_cases hT : optTruthy s.editingId = false
    · simp [updateNote, hT, requestsGuarded]
    · cases hv : safeParseNote s.title s.content with
      | error iss => simp [updateNote, hT, validateNoteOrAlert, hv, requestsGuarded]
      | ok d =>
          cases e2 with
          | some m => simp [updateNote, hT, validateNoteOrAlert, hv, requestsGuarded]
          | none =>
              cases session <;> cases fetch <;>
                simp [updateNote, hT, validateNoteOrAlert, hv, loadNotes,
                  requestsGuarded]
  · cases session <;> cases fetch <;> simp [loadNotes, requestsGuarded]
  · intro h; simp [mutatingButtons, h]

/-- A state whose busy flag is set. -/
def busyState : ClientState := { createState with loading := true }

/-- Witness for C7 at concrete outcomes and a busy state: the five guarded
entry points and the reload, plus all buttons disabled. -/
theorem busy_guards_requests_witness :
    requestsGuarded false (signUp busyState none).2 = true ∧
    requestsGuarded false (signIn busyState none).2 = true ∧
    requestsGuarded false (addNote busyState none none (FetchOutcome.ok [])).2 = true ∧
    requestsGuarded false (deleteNote busyState "n1" none none (FetchOutcome.ok [])).2 =
      true ∧
    requestsGuarded false (updateNote busyState none none (FetchOutcome.ok [])).2 = true ∧
    requestsGuarded false (loadNotes busyState none (FetchOutcome.ok [])).2 = true ∧
    (mutatingButtons busyState).all (fun b => b.disabled) = true :=
  (fun H => ⟨H.1, H.2.1, H.2.2.1, H.2.2.2.1, H.2.2.2.2.1, H.2.2.2.2.2.1,
      H.2.2.2.2.2.2 rfl⟩)
    (busy_guards_requests busyState none none none (FetchOutcome.ok []) "n1")

end QuickNotes
